import Mathlib

/-!
# Verification of the `ap-rustaceans-wit-attitudes` drone node

A shallow embedding of `src/drone.rs` (struct `MyDrone` and its packet /
command handlers) together with a model of the `wg_2024` routing-header
operations the drone calls.  Machine integers (`NodeId = u8`,
`flood_id/session_id/fragment_index = u64`, indices `usize`) are modelled as
`Nat`; the `f32` drop rate and the random draw are modelled as `ℚ`.
`HashMap<NodeId, Sender<Packet>>` is modelled as an association list from
node id to a Boolean meaning "the channel is open" (a `send` on a closed
channel fails); `HashSet` as a list used as a set.  A Rust `panic!` or a
panicking `unwrap()`/out-of-bounds index is the `fatal` outcome.
-/

namespace Drone

abbrev NodeId := Nat

inductive NodeType where
  | Client
  | Drone
  | Server
deriving DecidableEq, Repr

/-- Modelled from the spec: the `wg_2024::network::SourceRoutingHeader`
(external crate, not part of this repository): "an ordered, non-empty
sequence of NodeIdentity values (the hops) plus a zero-based cursor
(hop index)". -/
structure SourceRoutingHeader where
  hop_index : Nat
  hops : List NodeId
deriving DecidableEq, Repr

namespace SourceRoutingHeader

/-- Modelled from the spec: the hop at the cursor, "or none if the index is
out of bounds". -/
def current_hop (h : SourceRoutingHeader) : Option NodeId :=
  h.hops.get? h.hop_index

/-- Modelled from the spec: the hop one past the cursor. -/
def next_hop (h : SourceRoutingHeader) : Option NodeId :=
  h.hops.get? (h.hop_index + 1)

/-- Modelled from the spec: the hop one before the cursor, none at index 0. -/
def previous_hop (h : SourceRoutingHeader) : Option NodeId :=
  if h.hop_index = 0 then none else h.hops.get? (h.hop_index - 1)

/-- Modelled from the spec: "the cursor has reached the end of the hop
list". -/
def is_last_hop (h : SourceRoutingHeader) : Bool :=
  h.hop_index + 1 == h.hops.length

/-- Modelled from the spec: "advancing the cursor increments it by one". -/
def increase_hop_index (h : SourceRoutingHeader) : SourceRoutingHeader :=
  { h with hop_index := h.hop_index + 1 }

/-- Modelled from the spec: reset the cursor to index 0 (used by the drone
right before `increase_hop_index`, which together "reset the cursor to
index 1"). -/
def reset_hop_index (h : SourceRoutingHeader) : SourceRoutingHeader :=
  { h with hop_index := 0 }

/-- Modelled from the spec: in-place reversal of the hop list; the cursor is
re-pointed at the same element from the other end. -/
def reverse (h : SourceRoutingHeader) : SourceRoutingHeader :=
  { hop_index := h.hops.length - 1 - h.hop_index, hops := h.hops.reverse }

/-- Modelled from the spec: append one hop at the end of the hop list. -/
def append_hop (h : SourceRoutingHeader) (n : NodeId) : SourceRoutingHeader :=
  { h with hops := h.hops ++ [n] }

/-- Modelled from the spec: "take the sub-sequence from index 0 through the
current cursor (inclusive)" — the drone only ever calls
`sub_route(0..hop_index+1)`; the range must cover the cursor and stay in
bounds, else `None`. -/
def sub_route (h : SourceRoutingHeader) (start stop : Nat) :
    Option SourceRoutingHeader :=
  if start ≤ h.hop_index ∧ h.hop_index < stop ∧ stop ≤ h.hops.length then
    some { hop_index := h.hop_index - start,
           hops := (h.hops.drop start).take (stop - start) }
  else
    none

end SourceRoutingHeader

structure Fragment where
  fragment_index : Nat
  total_n_fragments : Nat
  length : Nat
  data : List Nat
deriving DecidableEq, Repr

structure Ack where
  fragment_index : Nat
deriving DecidableEq, Repr

inductive NackType where
  | ErrorInRouting (n : NodeId)
  | DestinationIsDrone
  | Dropped
  | UnexpectedRecipient (n : NodeId)
deriving DecidableEq, Repr

structure Nack where
  fragment_index : Nat
  nack_type : NackType
deriving DecidableEq, Repr

structure FloodRequest where
  flood_id : Nat
  initiator_id : NodeId
  path_trace : List (NodeId × NodeType)
deriving DecidableEq, Repr

structure FloodResponse where
  flood_id : Nat
  path_trace : List (NodeId × NodeType)
deriving DecidableEq, Repr

inductive PacketType where
  | MsgFragment (f : Fragment)
  | Ack (a : Ack)
  | Nack (n : Nack)
  | FloodRequest (fr : FloodRequest)
  | FloodResponse (fr : FloodResponse)
deriving DecidableEq, Repr

structure Packet where
  pack_type : PacketType
  routing_header : SourceRoutingHeader
  session_id : Nat
deriving DecidableEq, Repr

inductive DroneEvent where
  | PacketSent (p : Packet)
  | PacketDropped (p : Packet)
  | ControllerShortcut (p : Packet)
deriving DecidableEq, Repr

inductive DroneCommand where
  | SetPacketDropRate (pdr : ℚ)
  | Crash
  | AddSender (n : NodeId) (channelOpen : Bool)
  | RemoveSender (n : NodeId)
deriving DecidableEq, Repr

/-- The neighbor table `packet_send : HashMap<NodeId, Sender<Packet>>`:
an association list from neighbor id to whether its channel is open. -/
abbrev NeighborTable := List (NodeId × Bool)

def lookupNeighbor (t : NeighborTable) (n : NodeId) : Option Bool :=
  (t.find? (fun e => e.1 == n)).map Prod.snd

def containsKey (t : NeighborTable) (n : NodeId) : Bool :=
  (lookupNeighbor t n).isSome

def insertNeighbor (t : NeighborTable) (n : NodeId) (b : Bool) : NeighborTable :=
  if containsKey t n then t.map (fun e => if e.1 == n then (n, b) else e)
  else t ++ [(n, b)]

def removeNeighbor (t : NeighborTable) (n : NodeId) : NeighborTable :=
  t.filter (fun e => e.1 != n)

/-- The mutable fields of `MyDrone` (the channels themselves are part of the
outcome, not the state). -/
structure DroneState where
  id : NodeId
  packet_send : NeighborTable
  pdr : ℚ
  flood_cache : List (NodeId × Nat)
  should_send_dropped : Bool
deriving DecidableEq, Repr

/-- Result of processing one packet: the new state, the controller events
emitted (in order), and the packets handed to neighbor channels (recipient,
packet) in order — or `fatal` when the Rust code would `panic!`. -/
inductive Outcome where
  | ok (s : DroneState) (events : List DroneEvent) (sent : List (NodeId × Packet))
  | fatal
deriving DecidableEq, Repr

namespace Outcome

def events : Outcome → Option (List DroneEvent)
  | .ok _ evs _ => some evs
  | .fatal => none

def sent : Outcome → Option (List (NodeId × Packet))
  | .ok _ _ snt => some snt
  | .fatal => none

def state : Outcome → Option DroneState
  | .ok s _ _ => some s
  | .fatal => none

end Outcome

/-- `MyDrone::try_send_packet` (`drone.rs:431`): if a sender for
`next_node_id` exists and the send succeeds, emit `PacketDropped(p)` when the
`should_send_dropped` flag is set (clearing it) and `PacketSent(p)` otherwise;
a missing sender or a failed send is a `panic!`. -/
def trySendPacket (s : DroneState) (p : Packet) (next_node_id : NodeId) :
    Outcome :=
  match lookupNeighbor s.packet_send next_node_id with
  | some true =>
      if s.should_send_dropped then
        .ok { s with should_send_dropped := false }
          [.PacketDropped p] [(next_node_id, p)]
      else
        .ok s [.PacketSent p] [(next_node_id, p)]
  | some false => .fatal
  | none => .fatal

/-- `fragment_index` selection inside `MyDrone::send_nack` (`drone.rs:336`). -/
def nackFragmentIndex : PacketType → Nat
  | .MsgFragment f => f.fragment_index
  | .Nack n => n.fragment_index
  | _ => 0

/-- `MyDrone::send_nack` (`drone.rs:332`): wrap a `Nack` in a packet carrying
`source_routing_header` and send it to `hops[hop_index]` (a Rust index —
out of bounds panics). -/
def sendNack (s : DroneState) (packet : Packet) (nack_type : NackType)
    (srh : SourceRoutingHeader) : Outcome :=
  let p : Packet :=
    { pack_type := .Nack { fragment_index := nackFragmentIndex packet.pack_type,
                           nack_type := nack_type },
      routing_header := srh,
      session_id := packet.session_id }
  match srh.hops.get? srh.hop_index with
  | some next_node_id => trySendPacket s p next_node_id
  | none => .fatal

/-- `MyDrone::send_ack` (`drone.rs:351`). -/
def sendAck (s : DroneState) (packet : Packet) (ack : Ack)
    (srh : SourceRoutingHeader) : Outcome :=
  let p : Packet :=
    { pack_type := .Ack { fragment_index := ack.fragment_index },
      routing_header := srh,
      session_id := packet.session_id }
  match srh.hops.get? srh.hop_index with
  | some next_node_id => trySendPacket s p next_node_id
  | none => .fatal

/-- `MyDrone::send_msg_fragment` (`drone.rs:365`): the recipient is
`current_hop().unwrap()` of the already-advanced header. -/
def sendMsgFragment (s : DroneState) (packet : Packet) (f : Fragment)
    (srh : SourceRoutingHeader) : Outcome :=
  let p : Packet :=
    { pack_type := .MsgFragment f,
      routing_header := srh,
      session_id := packet.session_id }
  match srh.current_hop with
  | some next_node_id => trySendPacket s p next_node_id
  | none => .fatal

/-- `MyDrone::send_flood_response` (`drone.rs:415`). -/
def sendFloodResponse (s : DroneState) (packet : Packet) (fr : FloodResponse)
    (srh : SourceRoutingHeader) : Outcome :=
  let p : Packet :=
    { pack_type := .FloodResponse fr,
      routing_header := srh,
      session_id := packet.session_id }
  match srh.hops.get? srh.hop_index with
  | some next_node_id => trySendPacket s p next_node_id
  | none => .fatal

/-- The return-header construction the drone repeats in all four NACK paths
(`drone.rs:222-229`, `241-245`, `257-261`, `297-301`):
`sub_route(0..hop_index+1)` then `reverse()`, `reset_hop_index()`,
`increase_hop_index()` on a clone of the original header. -/
def reversedHeader (h : SourceRoutingHeader) : Option SourceRoutingHeader :=
  (h.sub_route 0 (h.hop_index + 1)).map
    (fun r => r.reverse.reset_hop_index.increase_hop_index)

/-- The fan-out loop of the first-sight FloodRequest branch
(`drone.rs:181-187`): iterate over the neighbor table, and for every entry
whose id differs from `prev_node_id`, `try_send_packet` the copy.  A `panic!`
inside one send aborts the whole loop. -/
def broadcastExcept (p : Packet) (prev_node_id : NodeId) :
    DroneState → List (NodeId × Bool) → Outcome
  | s, [] => .ok s [] []
  | s, (node_id, _) :: rest =>
      if prev_node_id ≠ node_id then
        match trySendPacket s p node_id with
        | .ok s' evs snt =>
            match broadcastExcept p prev_node_id s' rest with
            | .ok s'' evs' snt' => .ok s'' (evs ++ evs') (snt ++ snt')
            | .fatal => .fatal
        | .fatal => .fatal
      else
        broadcastExcept p prev_node_id s rest

/-- The `PacketType::FloodRequest` branch of `MyDrone::handle_packet`
(`drone.rs:148-218`). -/
def handleFloodRequest (s : DroneState) (packet : Packet)
    (fr : FloodRequest) : Outcome :=
  let is_in_cache := (s.id, fr.flood_id) ∈ s.flood_cache
  let has_neighbors := s.packet_send.length > 1
  if ¬is_in_cache ∧ has_neighbors then
    let s₁ := { s with flood_cache := (s.id, fr.flood_id) :: s.flood_cache }
    let new_hops :=
      if s.id ∈ packet.routing_header.hops then packet.routing_header.hops
      else packet.routing_header.hops ++ [s.id]
    let fr' := { fr with path_trace := fr.path_trace ++ [(s.id, .Drone)] }
    let p : Packet :=
      { pack_type := .FloodRequest fr',
        routing_header := { hop_index := packet.routing_header.hop_index,
                            hops := new_hops },
        session_id := packet.session_id }
    match p.routing_header.previous_hop with
    | some prev =>
        let prev_node_id := prev - 1
        broadcastExcept p prev_node_id s₁ s₁.packet_send
    | none => .fatal
  else
    let s₁ :=
      if ¬is_in_cache then
        { s with flood_cache := (s.id, fr.flood_id) :: s.flood_cache }
      else s
    let reversed_srh₀ :=
      if s.id ∈ packet.routing_header.hops then packet.routing_header
      else packet.routing_header.append_hop s.id
    let reversed_srh := reversed_srh₀.reverse
    let new_path_trace :=
      if (s.id, NodeType.Drone) ∈ fr.path_trace then fr.path_trace
      else fr.path_trace ++ [(s.id, NodeType.Drone)]
    sendFloodResponse s₁ packet
      { flood_id := fr.flood_id, path_trace := new_path_trace }
      { hop_index := reversed_srh.hop_index + 1, hops := reversed_srh.hops }

/-- `MyDrone::handle_packet` (`drone.rs:144-331`), parametrized by the random
draw `rng.gen_range(0.0..=1.0)` used by the MsgFragment branch. -/
def handlePacket (s : DroneState) (packet : Packet) (draw : ℚ) : Outcome :=
  match packet.pack_type with
  | .FloodRequest fr => handleFloodRequest s packet fr
  | _ =>
    match packet.routing_header.current_hop with
    | none => .fatal
    | some cur =>
      if cur ≠ s.id then
        match reversedHeader packet.routing_header with
        | some rsrh => sendNack s packet (.UnexpectedRecipient s.id) rsrh
        | none => .fatal
      else if packet.routing_header.is_last_hop then
        match reversedHeader packet.routing_header with
        | some rsrh => sendNack s packet .DestinationIsDrone rsrh
        | none => .fatal
      else
        match packet.routing_header.next_hop with
        | none => .fatal
        | some nh =>
          if ¬containsKey s.packet_send nh then
            match reversedHeader packet.routing_header with
            | some rsrh =>
                match packet.routing_header.hops.get?
                    (packet.routing_header.hop_index + 1) with
                | some bad_hop =>
                    sendNack s packet (.ErrorInRouting bad_hop) rsrh
                | none => .fatal
            | none => .fatal
          else
            let hops := packet.routing_header.hops
            let hop_index := packet.routing_header.hop_index + 1
            match packet.pack_type with
            | .Nack n =>
                sendNack s packet n.nack_type
                  { hop_index := hop_index, hops := hops }
            | .Ack a =>
                sendAck s packet a { hop_index := hop_index, hops := hops }
            | .MsgFragment f =>
                if draw < s.pdr then
                  match reversedHeader packet.routing_header with
                  | some rsrh =>
                      sendNack { s with should_send_dropped := true }
                        packet .Dropped rsrh
                  | none => .fatal
                else
                  sendMsgFragment s packet f
                    { hop_index := hop_index, hops := hops }
            | .FloodResponse fr =>
                sendFloodResponse s packet fr
                  { hop_index := hop_index, hops := hops }
            | .FloodRequest _ => .ok s [] []

/-- `MyDrone::handle_command` (`drone.rs:64-79`) restricted to the commands
that only mutate state (`Crash` instead enters the `crash` loop, modelled by
`crashStep`). -/
def handleCommand (s : DroneState) : DroneCommand → DroneState
  | .SetPacketDropRate pdr => { s with pdr := pdr }
  | .Crash => s
  | .AddSender n b => { s with packet_send := insertNeighbor s.packet_send n b }
  | .RemoveSender n => { s with packet_send := removeNeighbor s.packet_send n }

/-- One ready input inside the `crash` loop: a controller command or a
packet. -/
inductive CrashInput where
  | cmd (c : DroneCommand)
  | pkt (p : Packet)
deriving DecidableEq, Repr

/-- Result of one iteration of the `crash` loop: keep looping with a new
state, return from `crash` (the drone is terminated), or `panic!`. -/
inductive CrashResult where
  | cont (s : DroneState) (events : List DroneEvent) (sent : List (NodeId × Packet))
  | terminated (s : DroneState) (events : List DroneEvent) (sent : List (NodeId × Packet))
  | fatal
deriving DecidableEq, Repr

def liftOutcome : Outcome → CrashResult
  | .ok s evs snt => .cont s evs snt
  | .fatal => .fatal

/-- One iteration of the `select_biased!` body of `MyDrone::crash`
(`drone.rs:80-140`). -/
def crashStep (s : DroneState) : CrashInput → CrashResult
  | .cmd (.RemoveSender n) =>
      let t := removeNeighbor s.packet_send n
      if t.isEmpty then .terminated { s with packet_send := t } [] []
      else .cont { s with packet_send := t } [] []
  | .cmd _ => .cont s [] []
  | .pkt packet =>
      match packet.pack_type with
      | .FloodRequest _ => .cont s [] []
      | .Ack a =>
          liftOutcome (sendAck s packet a
            { hop_index := packet.routing_header.hop_index + 1,
              hops := packet.routing_header.hops })
      | .Nack n =>
          liftOutcome (sendNack s packet n.nack_type
            { hop_index := packet.routing_header.hop_index + 1,
              hops := packet.routing_header.hops })
      | .FloodResponse fr =>
          liftOutcome (sendFloodResponse s packet fr
            { hop_index := packet.routing_header.hop_index + 1,
              hops := packet.routing_header.hops })
      | .MsgFragment _ =>
          liftOutcome (sendNack s packet (.ErrorInRouting s.id)
            { hop_index := packet.routing_header.hop_index + 1,
              hops := packet.routing_header.hops })

/-- Result of one iteration of the outer loop of `MyDrone::run`: the body
either completes — and the unconditional `loop` continues with the next
iteration; `run` has no `break` or `return`, so there is no exit result —
or hands control to the inner `crash` loop (the `Crash` command), or
panics. -/
inductive RunStepResult where
  | step (s : DroneState) (events : List DroneEvent) (sent : List (NodeId × Packet))
  | entersCrashLoop
  | fatal
deriving DecidableEq, Repr

/-- One iteration of the unconditional `loop` of `MyDrone::run`
(`drone.rs:44-59`): a ready command is dispatched to `handle_command`
(`Crash` enters the inner `crash` loop, modelled by `crashStep`), a ready
packet to `handle_packet`.  When the inner crash loop returns, control falls
back here and the outer loop keeps iterating on the post-crash state. -/
def runStep (s : DroneState) (draw : ℚ) : CrashInput → RunStepResult
  | .cmd .Crash => .entersCrashLoop
  | .cmd c => .step (handleCommand s c) [] []
  | .pkt p =>
      match handlePacket s p draw with
      | .ok s' evs snt => .step s' evs snt
      | .fatal => .fatal

/-- Is the packet a FloodRequest? (used to state the non-flood side
conditions of `handle_packet`). -/
def PacketType.isFloodRequest : PacketType → Bool
  | .FloodRequest _ => true
  | _ => false

/-- Packets handed to neighbor channels by one `crash`-loop iteration
(`none` when it panicked). -/
def CrashResult.sentOf : CrashResult → Option (List (NodeId × Packet))
  | .cont _ _ snt => some snt
  | .terminated _ _ snt => some snt
  | .fatal => none

/-- Controller events of one `crash`-loop iteration. -/
def CrashResult.eventsOf : CrashResult → Option (List DroneEvent)
  | .cont _ evs _ => some evs
  | .terminated _ evs _ => some evs
  | .fatal => none

/-- Node 2 with open channels to neighbors 1 and 3, drop rate 0, empty
flood cache. -/
def exDrone : DroneState := ⟨2, [(1, true), (3, true)], 0, [], false⟩

/-- `exDrone` with drop rate 1. -/
def exDroneFullPdr : DroneState := { exDrone with pdr := 1 }

/-- `exDrone` after having seen flood id 7. -/
def exDroneCached : DroneState := { exDrone with flood_cache := [(2, 7)] }

/-- Node 2 whose only neighbor is 1 (a leaf for floods arriving from 1). -/
def exLeaf : DroneState := ⟨2, [(1, true)], 0, [], false⟩

/-- `exLeaf` after having seen flood id 7. -/
def exLeafCached : DroneState := { exLeaf with flood_cache := [(2, 7)] }

/-- FloodRequest(flood id 7, initiator 1) arriving from node 1 with
path trace [(1, Client)]. -/
def exFloodPacket : Packet := ⟨.FloodRequest ⟨7, 1, [(1, .Client)]⟩, ⟨1, [1]⟩, 0⟩

/-- The copy of `exFloodPacket` that `exDrone` re-broadcasts. -/
def exFloodOut : Packet :=
  ⟨.FloodRequest ⟨7, 1, [(1, .Client), (2, .Drone)]⟩, ⟨1, [1, 2]⟩, 0⟩

/-- A second FloodRequest with the same flood id 7 but initiator 9,
also arriving from node 1. -/
def exSecondFlood : Packet := ⟨.FloodRequest ⟨7, 9, [(9, .Client)]⟩, ⟨1, [1]⟩, 0⟩

/-- The FloodResponse `exLeaf` answers `exFloodPacket` with. -/
def exLeafResp : Packet :=
  ⟨.FloodResponse ⟨7, [(1, .Client), (2, .Drone)]⟩, ⟨1, [2, 1]⟩, 0⟩

/-- The FloodResponse `exLeafCached` answers `exSecondFlood` with. -/
def exSecondResp : Packet :=
  ⟨.FloodResponse ⟨7, [(9, .Client), (2, .Drone)]⟩, ⟨1, [2, 1]⟩, 0⟩

/-- A FloodRequest for the already-seen flood id 7 whose path trace contains
node 2 in a non-final position. -/
def exCachedFlood : Packet :=
  ⟨.FloodRequest ⟨7, 1, [(2, .Drone), (5, .Drone)]⟩, ⟨1, [1, 2]⟩, 0⟩

/-- The FloodResponse `exDroneCached` answers `exCachedFlood` with. -/
def exCachedResp : Packet :=
  ⟨.FloodResponse ⟨7, [(2, .Drone), (5, .Drone)]⟩, ⟨1, [2, 1]⟩, 0⟩

/-- An Ack routed 1 → 2 → 9 currently at node 2; node 2 has no channel
to 9. -/
def exAckPacket : Packet := ⟨.Ack ⟨5⟩, ⟨1, [1, 2, 9]⟩, 0⟩

/-- The Nack node 2 answers `exAckPacket` with (next hop 9 unreachable). -/
def exRoutingNack : Packet := ⟨.Nack ⟨0, .ErrorInRouting 9⟩, ⟨1, [2, 1]⟩, 0⟩

/-- A MsgFragment routed 1 → 2 → 3 currently at node 2. -/
def exMsgPacket : Packet := ⟨.MsgFragment ⟨0, 1, 0, []⟩, ⟨1, [1, 2, 3]⟩, 0⟩

/-- The Nack the crashing node 2 answers `exMsgPacket` with. -/
def exCrashNack : Packet :=
  ⟨.Nack ⟨0, .ErrorInRouting 2⟩, ⟨2, [1, 2, 3]⟩, 0⟩

/-- The Nack(Dropped) node 2 emits when it drops `exMsgPacket`. -/
def exDropNack : Packet := ⟨.Nack ⟨0, .Dropped⟩, ⟨1, [2, 1]⟩, 0⟩

/-- `exMsgPacket` as forwarded by node 2 (advanced header). -/
def exForwarded : Packet := ⟨.MsgFragment ⟨0, 1, 0, []⟩, ⟨2, [1, 2, 3]⟩, 0⟩

/-! ## Helper lemmas -/

/-- A successful `try_send_packet` hands exactly the given packet to the given
neighbor, leaves every field but the `should_send_dropped` flag unchanged, and
emits exactly one event: `PacketSent(p)` or `PacketDropped(p)`. -/
theorem trySendPacket_ok (s : DroneState) (p : Packet) (n : NodeId)
    (s' : DroneState) (evs : List DroneEvent) (snt : List (NodeId × Packet))
    (h : trySendPacket s p n = .ok s' evs snt) :
    s'.id = s.id ∧ s'.packet_send = s.packet_send ∧ s'.pdr = s.pdr ∧
    s'.flood_cache = s.flood_cache ∧ snt = [(n, p)] ∧
    (evs = [.PacketSent p] ∨ evs = [.PacketDropped p]) := by
  unfold trySendPacket at h
  rcases hl : lookupNeighbor s.packet_send n with _ | b
  · rw [hl] at h; exact absurd h (by simp)
  · rcases b with _ | _
    · rw [hl] at h; exact absurd h (by simp)
    · rw [hl] at h
      by_cases hf : s.should_send_dropped = true
      · rw [if_pos hf] at h
        simp only [Outcome.ok.injEq] at h
        obtain ⟨h1, h2, h3⟩ := h
        subst h1; subst h2; subst h3
        simp
      · rw [if_neg hf] at h
        simp only [Outcome.ok.injEq] at h
        obtain ⟨h1, h2, h3⟩ := h
        subst h1; subst h2; subst h3
        simp

/-- The packets handed out by `try_send_packet` do not depend on the drop
rate. -/
theorem trySendPacket_pdr (s : DroneState) (q : ℚ) (p : Packet) (n : NodeId) :
    (trySendPacket { s with pdr := q } p n).sent = (trySendPacket s p n).sent ∧
    (trySendPacket { s with pdr := q } p n).events =
      (trySendPacket s p n).events := by
  unfold trySendPacket
  rcases lookupNeighbor s.packet_send n with _ | b
  · simp [Outcome.sent, Outcome.events]
  · rcases b with _ | _
    · simp [Outcome.sent, Outcome.events]
    · by_cases hf : s.should_send_dropped = true <;>
        simp [hf, Outcome.sent, Outcome.events]

/-- `liftOutcome` never produces `terminated`. -/
theorem liftOutcome_ne_terminated (o : Outcome) (s' : DroneState)
    (evs : List DroneEvent) (snt : List (NodeId × Packet)) :
    liftOutcome o ≠ .terminated s' evs snt := by
  cases o <;> simp [liftOutcome]

/-- A successful `send_nack` sends exactly one packet: the Nack built from the
original packet's fragment index and the given type, under the given header. -/
theorem sendNack_ok (s : DroneState) (packet : Packet) (nt : NackType)
    (srh : SourceRoutingHeader) (s' : DroneState) (evs : List DroneEvent)
    (snt : List (NodeId × Packet))
    (h : sendNack s packet nt srh = .ok s' evs snt) :
    s'.id = s.id ∧ s'.packet_send = s.packet_send ∧
    s'.flood_cache = s.flood_cache ∧
    ∀ n q, (n, q) ∈ snt →
      q = ⟨.Nack ⟨nackFragmentIndex packet.pack_type, nt⟩, srh,
           packet.session_id⟩ := by
  unfold sendNack at h
  rcases hg : srh.hops.get? srh.hop_index with _ | nid
  · rw [hg] at h; exact absurd h (by simp)
  · rw [hg] at h
    obtain ⟨h1, h2, _, h4, h5, _⟩ := trySendPacket_ok _ _ _ _ _ _ h
    refine ⟨h1, h2, h4, ?_⟩
    intro n q hq
    rw [h5] at hq
    simp only [List.mem_singleton, Prod.mk.injEq] at hq
    exact hq.2

/-- A successful `send_ack` sends exactly one Ack under the given header. -/
theorem sendAck_ok (s : DroneState) (packet : Packet) (a : Ack)
    (srh : SourceRoutingHeader) (s' : DroneState) (evs : List DroneEvent)
    (snt : List (NodeId × Packet))
    (h : sendAck s packet a srh = .ok s' evs snt) :
    s'.id = s.id ∧ s'.packet_send = s.packet_send ∧
    s'.flood_cache = s.flood_cache ∧
    ∀ n q, (n, q) ∈ snt →
      q = ⟨.Ack ⟨a.fragment_index⟩, srh, packet.session_id⟩ := by
  unfold sendAck at h
  rcases hg : srh.hops.get? srh.hop_index with _ | nid
  · rw [hg] at h; exact absurd h (by simp)
  · rw [hg] at h
    obtain ⟨h1, h2, _, h4, h5, _⟩ := trySendPacket_ok _ _ _ _ _ _ h
    refine ⟨h1, h2, h4, ?_⟩
    intro n q hq
    rw [h5] at hq
    simp only [List.mem_singleton, Prod.mk.injEq] at hq
    exact hq.2

/-- A successful `send_msg_fragment` sends exactly one MsgFragment under the
given header. -/
theorem sendMsgFragment_ok (s : DroneState) (packet : Packet) (f : Fragment)
    (srh : SourceRoutingHeader) (s' : DroneState) (evs : List DroneEvent)
    (snt : List (NodeId × Packet))
    (h : sendMsgFragment s packet f srh = .ok s' evs snt) :
    s'.id = s.id ∧ s'.packet_send = s.packet_send ∧
    s'.flood_cache = s.flood_cache ∧
    ∀ n q, (n, q) ∈ snt → q = ⟨.MsgFragment f, srh, packet.session_id⟩ := by
  unfold sendMsgFragment at h
  rcases hg : srh.current_hop with _ | nid
  · rw [hg] at h; exact absurd h (by simp)
  · rw [hg] at h
    obtain ⟨h1, h2, _, h4, h5, _⟩ := trySendPacket_ok _ _ _ _ _ _ h
    refine ⟨h1, h2, h4, ?_⟩
    intro n q hq
    rw [h5] at hq
    simp only [List.mem_singleton, Prod.mk.injEq] at hq
    exact hq.2

/-- A successful `send_flood_response` sends exactly one FloodResponse under
the given header. -/
theorem sendFloodResponse_ok (s : DroneState) (packet : Packet)
    (fr : FloodResponse) (srh : SourceRoutingHeader) (s' : DroneState)
    (evs : List DroneEvent) (snt : List (NodeId × Packet))
    (h : sendFloodResponse s packet fr srh = .ok s' evs snt) :
    s'.id = s.id ∧ s'.packet_send = s.packet_send ∧
    s'.flood_cache = s.flood_cache ∧
    ∀ n q, (n, q) ∈ snt → q = ⟨.FloodResponse fr, srh, packet.session_id⟩ := by
  unfold sendFloodResponse at h
  rcases hg : srh.hops.get? srh.hop_index with _ | nid
  · rw [hg] at h; exact absurd h (by simp)
  · rw [hg] at h
    obtain ⟨h1, h2, _, h4, h5, _⟩ := trySendPacket_ok _ _ _ _ _ _ h
    refine ⟨h1, h2, h4, ?_⟩
    intro n q hq
    rw [h5] at hq
    simp only [List.mem_singleton, Prod.mk.injEq] at hq
    exact hq.2

/-- A successful flood fan-out forwards only copies of the given packet and
leaves id and flood cache unchanged. -/
theorem broadcastExcept_ok (p : Packet) (skip : NodeId) :
    ∀ (t : List (NodeId × Bool)) (s s' : DroneState) (evs : List DroneEvent)
      (snt : List (NodeId × Packet)),
      broadcastExcept p skip s t = .ok s' evs snt →
      s'.id = s.id ∧ s'.flood_cache = s.flood_cache ∧
      ∀ n q, (n, q) ∈ snt → q = p := by
  intro t
  induction t with
  | nil =>
      intro s s' evs snt h
      unfold broadcastExcept at h
      simp only [Outcome.ok.injEq] at h
      obtain ⟨h1, _, h3⟩ := h
      subst h1; subst h3
      simp
  | cons hd tl ih =>
      intro s s' evs snt h
      unfold broadcastExcept at h
      by_cases hskip : skip ≠ hd.1
      · rw [if_pos hskip] at h
        cases h1 : trySendPacket s p hd.1 with
        | fatal => rw [h1] at h; exact absurd h (by simp)
        | ok s₁ evs₁ snt₁ =>
            rw [h1] at h
            dsimp only at h
            cases h2 : broadcastExcept p skip s₁ tl with
            | fatal => rw [h2] at h; exact absurd h (by simp)
            | ok s₂ evs₂ snt₂ =>
                rw [h2] at h
                simp only [Outcome.ok.injEq] at h
                obtain ⟨ha, _, hc⟩ := h
                subst ha; subst hc
                obtain ⟨g1, _, _, g4, g5, _⟩ := trySendPacket_ok _ _ _ _ _ _ h1
                obtain ⟨k1, k2, k3⟩ := ih s₁ s₂ evs₂ snt₂ h2
                refine ⟨k1.trans g1, k2.trans g4, ?_⟩
                intro n q hq
                rcases List.mem_append.mp hq with hq | hq
                · rw [g5] at hq
                  simp only [List.mem_singleton, Prod.mk.injEq] at hq
                  exact hq.2
                · exact k3 n q hq
      · rw [if_neg hskip] at h
        exact ih s s' evs snt h

/-- The composite `sub_route(0..hop_index+1); reverse; reset_hop_index;
increase_hop_index` yields the reversed traversed prefix with the cursor at
index 1. -/
theorem reversedHeader_spec (h : SourceRoutingHeader)
    (hc : h.hop_index < h.hops.length) :
    reversedHeader h = some ⟨1, (h.hops.take (h.hop_index + 1)).reverse⟩ := by
  unfold reversedHeader SourceRoutingHeader.sub_route
  rw [if_pos ⟨Nat.zero_le _, Nat.lt_succ_self _, hc⟩]
  simp [SourceRoutingHeader.reverse, SourceRoutingHeader.reset_hop_index,
    SourceRoutingHeader.increase_hop_index]

/-- The current hop of the reversed header is the original previous hop. -/
theorem reversedHeader_current (h : SourceRoutingHeader)
    (hc : h.hop_index < h.hops.length) (h1 : 1 ≤ h.hop_index) :
    SourceRoutingHeader.current_hop ⟨1, (h.hops.take (h.hop_index + 1)).reverse⟩
      = h.previous_hop := by
  have hlen : (h.hops.take (h.hop_index + 1)).length = h.hop_index + 1 := by
    rw [List.length_take]; omega
  show ((h.hops.take (h.hop_index + 1)).reverse).get? 1 = h.previous_hop
  rw [List.get?_eq_getElem?, List.getElem?_reverse (by rw [hlen]; omega), hlen]
  rw [List.getElem?_take, if_pos (by omega)]
  unfold SourceRoutingHeader.previous_hop
  rw [if_neg (by omega), List.get?_eq_getElem?]
  have heq : h.hop_index + 1 - 1 - 1 = h.hop_index - 1 := by omega
  rw [heq]

/-- A successful `handle_packet` on a FloodRequest records the dedup key
`(self.id, flood_id)` and removes nothing from the flood cache. -/
theorem handleFloodRequest_ok (s : DroneState) (packet : Packet)
    (fr : FloodRequest) (s' : DroneState) (evs : List DroneEvent)
    (snt : List (NodeId × Packet))
    (h : handleFloodRequest s packet fr = .ok s' evs snt) :
    s'.id = s.id ∧ (s.id, fr.flood_id) ∈ s'.flood_cache ∧
    ∀ k, k ∈ s.flood_cache → k ∈ s'.flood_cache := by
  unfold handleFloodRequest at h
  dsimp only at h
  split at h
  next hcond =>
    split at h
    next prev hp =>
      obtain ⟨h1, h2, _⟩ := broadcastExcept_ok _ _ _ _ _ _ _ h
      refine ⟨h1, ?_, ?_⟩
      · rw [h2]; exact List.mem_cons_self _ _
      · intro k hk; rw [h2]; exact List.mem_cons_of_mem _ hk
    next hp => exact absurd h (by simp)
  next hcond =>
    by_cases hin : (s.id, fr.flood_id) ∈ s.flood_cache
    · rw [if_neg (by simp [hin])] at h
      obtain ⟨h1, _, h3, _⟩ := sendFloodResponse_ok _ _ _ _ _ _ _ h
      exact ⟨h1, by rw [h3]; exact hin, fun k hk => by rw [h3]; exact hk⟩
    · rw [if_pos (by simp [hin])] at h
      obtain ⟨h1, _, h3, _⟩ := sendFloodResponse_ok _ _ _ _ _ _ _ h
      refine ⟨h1, by rw [h3]; exact List.mem_cons_self _ _,
        fun k hk => by rw [h3]; exact List.mem_cons_of_mem _ hk⟩

/-- When the dedup key is cached, or the node has at most one neighbor, every
packet sent in reply to a FloodRequest is the synthesized FloodResponse: the
accumulated path trace (this node appended when not already present) routed
along the reversed traversed hops. -/
theorem handleFloodRequest_response (s : DroneState) (packet : Packet)
    (fr : FloodRequest)
    (hcond : (s.id, fr.flood_id) ∈ s.flood_cache ∨ s.packet_send.length ≤ 1) :
    ∀ s' evs snt, handleFloodRequest s packet fr = .ok s' evs snt →
      ∀ n q, (n, q) ∈ snt →
        q = ⟨.FloodResponse
              ⟨fr.flood_id,
               if (s.id, NodeType.Drone) ∈ fr.path_trace then fr.path_trace
               else fr.path_trace ++ [(s.id, NodeType.Drone)]⟩,
             ⟨((if s.id ∈ packet.routing_header.hops then packet.routing_header
                 else packet.routing_header.append_hop s.id).reverse).hop_index
                + 1,
              ((if s.id ∈ packet.routing_header.hops then packet.routing_header
                 else packet.routing_header.append_hop s.id).reverse).hops⟩,
             packet.session_id⟩ := by
  intro s' evs snt h n q hq
  unfold handleFloodRequest at h
  dsimp only at h
  rw [if_neg (by
    rintro ⟨hna, hb⟩
    rcases hcond with hc | hc
    · exact hna hc
    · omega)] at h
  obtain ⟨_, _, _, h4⟩ := sendFloodResponse_ok _ _ _ _ _ _ _ h
  exact h4 n q hq

/-- A MsgFragment at the expected, non-final hop with a reachable next hop:
the drone consults the drop simulator and either reverses the header for a
`Nack(Dropped)` or forwards the fragment with the advanced header. -/
theorem handlePacket_msgFragment (s : DroneState) (f : Fragment)
    (rh : SourceRoutingHeader) (sid : Nat) (nh : NodeId) (draw : ℚ)
    (hcur : rh.current_hop = some s.id)
    (hlast : rh.is_last_hop = false)
    (hnext : rh.next_hop = some nh)
    (hhave : containsKey s.packet_send nh = true) :
    handlePacket s ⟨.MsgFragment f, rh, sid⟩ draw =
      if draw < s.pdr then
        sendNack { s with should_send_dropped := true } ⟨.MsgFragment f, rh, sid⟩
          .Dropped ⟨1, (rh.hops.take (rh.hop_index + 1)).reverse⟩
      else
        sendMsgFragment s ⟨.MsgFragment f, rh, sid⟩ f
          ⟨rh.hop_index + 1, rh.hops⟩ := by
  have hlt : rh.hop_index < rh.hops.length := by
    have hc := hcur
    unfold SourceRoutingHeader.current_hop at hc
    rw [List.get?_eq_getElem?] at hc
    exact (List.getElem?_eq_some.mp hc).1
  unfold handlePacket
  dsimp only
  rw [hcur]
  dsimp only
  rw [if_neg (by simp), hlast]
  simp only [Bool.false_eq_true, if_false]
  rw [hnext]
  dsimp only
  rw [hhave]
  simp only [not_true, if_false]
  rw [reversedHeader_spec rh hlt]

/-- `liftOutcome` keeps looping exactly on a successful outcome. -/
theorem liftOutcome_cont (o : Outcome) (s' : DroneState)
    (evs : List DroneEvent) (snt : List (NodeId × Packet))
    (h : liftOutcome o = .cont s' evs snt) : o = .ok s' evs snt := by
  cases o with
  | ok a b c => simpa [liftOutcome] using h
  | fatal => exact absurd h (by simp [liftOutcome])

/-- The packets a `send_nack` hands out do not depend on the drop rate. -/
theorem sendNack_pdr (s : DroneState) (q : ℚ) (packet : Packet)
    (nt : NackType) (srh : SourceRoutingHeader) :
    (sendNack { s with pdr := q } packet nt srh).sent =
      (sendNack s packet nt srh).sent ∧
    (sendNack { s with pdr := q } packet nt srh).events =
      (sendNack s packet nt srh).events := by
  unfold sendNack
  cases srh.hops.get? srh.hop_index with
  | none => simp [Outcome.sent, Outcome.events]
  | some nid => exact trySendPacket_pdr s q _ nid

/-- Every successful `handle_packet` keeps the node id and never removes a
flood-cache entry. -/
theorem handlePacket_cache_mono (s : DroneState) (packet : Packet) (draw : ℚ)
    (s' : DroneState) (evs : List DroneEvent) (snt : List (NodeId × Packet))
    (h : handlePacket s packet draw = .ok s' evs snt) :
    s'.id = s.id ∧ ∀ k, k ∈ s.flood_cache → k ∈ s'.flood_cache := by
  unfold handlePacket at h
  split at h
  next fr =>
    obtain ⟨h1, _, h3⟩ := handleFloodRequest_ok _ _ _ _ _ _ h
    exact ⟨h1, h3⟩
  next hne =>
    split at h
    next => exact absurd h (by simp)
    next cur =>
      split at h
      · split at h
        next rsrh =>
          obtain ⟨h1, _, h3, _⟩ := sendNack_ok _ _ _ _ _ _ _ h
          exact ⟨h1, fun k hk => by rw [h3]; exact hk⟩
        next => exact absurd h (by simp)
      · split at h
        · split at h
          next rsrh =>
            obtain ⟨h1, _, h3, _⟩ := sendNack_ok _ _ _ _ _ _ _ h
            exact ⟨h1, fun k hk => by rw [h3]; exact hk⟩
          next => exact absurd h (by simp)
        · split at h
          next => exact absurd h (by simp)
          next nh =>
            split at h
            · split at h
              next rsrh =>
                split at h
                next bad =>
                  obtain ⟨h1, _, h3, _⟩ := sendNack_ok _ _ _ _ _ _ _ h
                  exact ⟨h1, fun k hk => by rw [h3]; exact hk⟩
                next => exact absurd h (by simp)
              next => exact absurd h (by simp)
            · split at h
              next n =>
                obtain ⟨h1, _, h3, _⟩ := sendNack_ok _ _ _ _ _ _ _ h
                exact ⟨h1, fun k hk => by rw [h3]; exact hk⟩
              next a =>
                obtain ⟨h1, _, h3, _⟩ := sendAck_ok _ _ _ _ _ _ _ h
                exact ⟨h1, fun k hk => by rw [h3]; exact hk⟩
              next f =>
                split at h
                · split at h
                  next rsrh =>
                    obtain ⟨h1, _, h3, _⟩ := sendNack_ok _ _ _ _ _ _ _ h
                    exact ⟨h1, fun k hk => by rw [h3]; exact hk⟩
                  next => exact absurd h (by simp)
                · obtain ⟨h1, _, h3, _⟩ := sendMsgFragment_ok _ _ _ _ _ _ _ h
                  exact ⟨h1, fun k hk => by rw [h3]; exact hk⟩
              next fr =>
                obtain ⟨h1, _, h3, _⟩ := sendFloodResponse_ok _ _ _ _ _ _ _ h
                exact ⟨h1, fun k hk => by rw [h3]; exact hk⟩
              next fr =>
                simp only [Outcome.ok.injEq] at h
                obtain ⟨h1, _, _⟩ := h
                subst h1
                exact ⟨rfl, fun k hk => hk⟩

/-- One `crash`-loop iteration that keeps looping or terminates never touches
the flood cache or the node id. -/
theorem crashStep_state (s : DroneState) (i : CrashInput) (s' : DroneState)
    (evs : List DroneEvent) (snt : List (NodeId × Packet))
    (h : crashStep s i = .cont s' evs snt ∨
         crashStep s i = .terminated s' evs snt) :
    s'.flood_cache = s.flood_cache ∧ s'.id = s.id := by
  cases i with
  | cmd c =>
      cases c with
      | RemoveSender n =>
          have hr : crashStep s (.cmd (.RemoveSender n)) =
              (if (removeNeighbor s.packet_send n).isEmpty then
                CrashResult.terminated
                  { s with packet_send := removeNeighbor s.packet_send n } [] []
              else
                CrashResult.cont
                  { s with packet_send := removeNeighbor s.packet_send n } [] []) := rfl
          rw [hr] at h
          by_cases he : (removeNeighbor s.packet_send n).isEmpty = true
          · rw [if_pos he] at h
            rcases h with h | h
            · exact absurd h (by simp)
            · simp only [CrashResult.terminated.injEq] at h
              obtain ⟨h1, _, _⟩ := h
              rw [← h1]
              exact ⟨rfl, rfl⟩
          · rw [if_neg he] at h
            rcases h with h | h
            · simp only [CrashResult.cont.injEq] at h
              obtain ⟨h1, _, _⟩ := h
              rw [← h1]
              exact ⟨rfl, rfl⟩
            · exact absurd h (by simp)
      | SetPacketDropRate q =>
          have hr : crashStep s (.cmd (.SetPacketDropRate q)) = .cont s [] [] := rfl
          rw [hr] at h
          rcases h with h | h
          · simp only [CrashResult.cont.injEq] at h
            obtain ⟨h1, _, _⟩ := h
            rw [← h1]; exact ⟨rfl, rfl⟩
          · exact absurd h (by simp)
      | Crash =>
          have hr : crashStep s (.cmd .Crash) = .cont s [] [] := rfl
          rw [hr] at h
          rcases h with h | h
          · simp only [CrashResult.cont.injEq] at h
            obtain ⟨h1, _, _⟩ := h
            rw [← h1]; exact ⟨rfl, rfl⟩
          · exact absurd h (by simp)
      | AddSender n b =>
          have hr : crashStep s (.cmd (.AddSender n b)) = .cont s [] [] := rfl
          rw [hr] at h
          rcases h with h | h
          · simp only [CrashResult.cont.injEq] at h
            obtain ⟨h1, _, _⟩ := h
            rw [← h1]; exact ⟨rfl, rfl⟩
          · exact absurd h (by simp)
  | pkt p =>
      obtain ⟨pt, rh, sid⟩ := p
      cases pt with
      | FloodRequest fr =>
          have hr : crashStep s (.pkt ⟨.FloodRequest fr, rh, sid⟩) = .cont s [] [] := rfl
          rw [hr] at h
          rcases h with h | h
          · simp only [CrashResult.cont.injEq] at h
            obtain ⟨h1, _, _⟩ := h
            rw [← h1]; exact ⟨rfl, rfl⟩
          · exact absurd h (by simp)
      | Ack a =>
          have hr : crashStep s (.pkt ⟨.Ack a, rh, sid⟩) =
              liftOutcome (sendAck s ⟨.Ack a, rh, sid⟩ a
                ⟨rh.hop_index + 1, rh.hops⟩) := rfl
          rw [hr] at h
          rcases h with h | h
          · obtain ⟨h1, _, h3, _⟩ := sendAck_ok _ _ _ _ _ _ _ (liftOutcome_cont _ _ _ _ h)
            exact ⟨h3, h1⟩
          · exact absurd h (liftOutcome_ne_terminated _ _ _ _)
      | Nack n =>
          have hr : crashStep s (.pkt ⟨.Nack n, rh, sid⟩) =
              liftOutcome (sendNack s ⟨.Nack n, rh, sid⟩ n.nack_type
                ⟨rh.hop_index + 1, rh.hops⟩) := rfl
          rw [hr] at h
          rcases h with h | h
          · obtain ⟨h1, _, h3, _⟩ := sendNack_ok _ _ _ _ _ _ _ (liftOutcome_cont _ _ _ _ h)
            exact ⟨h3, h1⟩
          · exact absurd h (liftOutcome_ne_terminated _ _ _ _)
      | FloodResponse fr =>
          have hr : crashStep s (.pkt ⟨.FloodResponse fr, rh, sid⟩) =
              liftOutcome (sendFloodResponse s ⟨.FloodResponse fr, rh, sid⟩ fr
                ⟨rh.hop_index + 1, rh.hops⟩) := rfl
          rw [hr] at h
          rcases h with h | h
          · obtain ⟨h1, _, h3, _⟩ :=
              sendFloodResponse_ok _ _ _ _ _ _ _ (liftOutcome_cont _ _ _ _ h)
            exact ⟨h3, h1⟩
          · exact absurd h (liftOutcome_ne_terminated _ _ _ _)
      | MsgFragment f =>
          have hr : crashStep s (.pkt ⟨.MsgFragment f, rh, sid⟩) =
              liftOutcome (sendNack s ⟨.MsgFragment f, rh, sid⟩
                (.ErrorInRouting s.id) ⟨rh.hop_index + 1, rh.hops⟩) := rfl
          rw [hr] at h
          rcases h with h | h
          · obtain ⟨h1, _, h3, _⟩ := sendNack_ok _ _ _ _ _ _ _ (liftOutcome_cont _ _ _ _ h)
            exact ⟨h3, h1⟩
          · exact absurd h (liftOutcome_ne_terminated _ _ _ _)

/-! ## Claim theorems -/

/-- The sent list survives lifting an outcome into the crash loop. -/
theorem liftOutcome_sentOf (o : Outcome) : (liftOutcome o).sentOf = o.sent := by
  cases o <;> rfl

/-- C1: failing input. The claim says a first-sight FloodRequest at a node
with more than one neighbor is re-broadcast to every neighbor except exactly
the arrival one, with the cursor incremented.  Node 2 (neighbors 1, 3)
receives FloodRequest(flood id 7, initiator 1) from neighbor 1: the code
computes `prev_node_id = previous_hop().unwrap() - 1 = 0` (`drone.rs:180`),
so it re-broadcasts to both neighbors — the arrival neighbor 1 gets a copy —
and the outgoing header keeps `hop_index` unchanged, contradicting the code's
own comment "send packet to neighbors (except for the previous drone)". -/
theorem C1_flood_rebroadcast_failing_input :
    handlePacket exDrone exFloodPacket 0 =
      .ok { exDrone with flood_cache := [(2, 7)] }
        [.PacketSent exFloodOut, .PacketSent exFloodOut]
        [(1, exFloodOut), (3, exFloodOut)] ∧
    exFloodPacket.routing_header.previous_hop = some 1 ∧
    lookupNeighbor exDrone.packet_send 1 = some true ∧
    (1, exFloodOut) ∈ [((1 : NodeId), exFloodOut), (3, exFloodOut)] ∧
    exFloodOut.routing_header.hop_index = exFloodPacket.routing_header.hop_index := by
  exact ⟨rfl, rfl, rfl, by simp, rfl⟩

/-- C2 counterexample: node 2 has no channel to node 9; `try_send_packet`
panics (the `fatal` outcome, `drone.rs:447`) and emits no event at all — no
`ControllerShortcut` is emitted and the node does not continue processing. -/
theorem C2_shortcut_counterexample :
    trySendPacket exDrone exAckPacket 9 = .fatal ∧
    (trySendPacket exDrone exAckPacket 9).events = none := by
  exact ⟨rfl, rfl⟩

/-- C2 (amended): when the intended next hop's channel is absent or closed,
`try_send_packet` panics — a fatal outcome for the node; no event is emitted,
and in particular a `ControllerShortcut` event is never emitted on any path
(successful sends emit only `PacketSent` or `PacketDropped`). -/
theorem C2_send_failure_fatal (s : DroneState) (p : Packet) (n : NodeId) :
    ((lookupNeighbor s.packet_send n = none ∨
      lookupNeighbor s.packet_send n = some false) →
      trySendPacket s p n = .fatal) ∧
    (∀ s' evs snt, trySendPacket s p n = .ok s' evs snt →
      ∀ q, DroneEvent.ControllerShortcut q ∉ evs) := by
  constructor
  · rintro (hl | hl) <;> (unfold trySendPacket; rw [hl])
  · intro s' evs snt h q
    obtain ⟨_, _, _, _, _, he⟩ := trySendPacket_ok _ _ _ _ _ _ h
    rcases he with he | he <;> (rw [he]; simp)

/-- C2 witness: a concrete absent-channel send is fatal. -/
theorem C2_send_failure_fatal_witness :
    trySendPacket exLeaf exMsgPacket 9 = .fatal :=
  (C2_send_failure_fatal exLeaf exMsgPacket 9).1 (Or.inl rfl)

/-- C3 counterexample: an Ack routed 1 → 2 → 9 reaches node 2, whose
neighbors are 1 and 3.  The emitted Nack is `ErrorInRouting 9` — the
unreachable next hop — not `ErrorInRouting 2` (this node), refuting the claim
that the Nack carries this node's own identity. -/
theorem C3_nack_identity_counterexample :
    handlePacket exDrone exAckPacket 0 =
      .ok exDrone [.PacketSent exRoutingNack] [(1, exRoutingNack)] ∧
    exRoutingNack.pack_type = .Nack ⟨0, .ErrorInRouting 9⟩ ∧
    exDrone.id = 2 ∧ (9 : NodeId) ≠ 2 := by
  exact ⟨rfl, rfl, rfl, by decide⟩

/-- C3 (amended): for every non-FloodRequest packet whose current hop is
this node, which is not the last hop, and whose next hop is not in the
Neighbor Table, the node reverses the original header (hops =
reverse(h[0..=c]), cursor 1) and emits a Nack whose type is
`ErrorInRouting(hops[hop_index+1])` — the identity of the unreachable next
hop (`drone.rs:265`), not this node's own identity. -/
theorem C3_routing_error_nack (s : DroneState) (packet : Packet) (nh : NodeId)
    (draw : ℚ)
    (hty : packet.pack_type.isFloodRequest = false)
    (hcur : packet.routing_header.current_hop = some s.id)
    (hlast : packet.routing_header.is_last_hop = false)
    (hnext : packet.routing_header.next_hop = some nh)
    (hmiss : containsKey s.packet_send nh = false) :
    handlePacket s packet draw =
      sendNack s packet (.ErrorInRouting nh)
        ⟨1, (packet.routing_header.hops.take
              (packet.routing_header.hop_index + 1)).reverse⟩ := by
  obtain ⟨pt, rh, sid⟩ := packet
  dsimp only at hty hcur hlast hnext ⊢
  have hlt : rh.hop_index < rh.hops.length := by
    have hc := hcur
    unfold SourceRoutingHeader.current_hop at hc
    rw [List.get?_eq_getElem?] at hc
    exact (List.getElem?_eq_some.mp hc).1
  cases pt
  case FloodRequest fr => exact absurd hty (by simp [PacketType.isFloodRequest])
  all_goals (
    unfold handlePacket
    dsimp only
    rw [hcur]
    dsimp only
    rw [if_neg (by simp), hlast]
    simp only [Bool.false_eq_true, if_false]
    rw [hnext]
    dsimp only
    rw [hmiss]
    simp only [Bool.false_eq_true, not_false_iff, if_true]
    rw [reversedHeader_spec rh hlt]
    dsimp only
    rw [show rh.hops.get? (rh.hop_index + 1) = some nh from hnext])

/-- C3 witness: the concrete Ack from the counterexample input. -/
theorem C3_routing_error_nack_witness :
    handlePacket exDrone exAckPacket 0 =
      sendNack exDrone exAckPacket (.ErrorInRouting 9)
        ⟨1, ([1, 2, 9].take 2).reverse⟩ :=
  C3_routing_error_nack exDrone exAckPacket 9 0 rfl rfl rfl rfl rfl

/-- C4: for every header with hops `h` and cursor `c < length h`, the
NACK-path return-header construction (`sub_route(0..c+1)`, `reverse`,
`reset_hop_index`, `increase_hop_index`) yields hops = reverse(h[0..=c]) and
cursor 1, and when `1 ≤ c` (the header has a sender) the resulting current
hop is the original previous hop — the node that sent the packet.  The
embedding is pure: the input header is never mutated, and the construction
is a function of the input alone, hence idempotent. -/
theorem C4_header_reversal (h : SourceRoutingHeader)
    (hc : h.hop_index < h.hops.length) :
    reversedHeader h = some ⟨1, (h.hops.take (h.hop_index + 1)).reverse⟩ ∧
    (1 ≤ h.hop_index →
      (reversedHeader h).bind SourceRoutingHeader.current_hop =
        h.previous_hop) := by
  refine ⟨reversedHeader_spec h hc, fun h1 => ?_⟩
  rw [reversedHeader_spec h hc]
  simpa [Option.bind] using reversedHeader_current h hc h1

/-- C4 witness: reversal of the concrete header (cursor 1, hops 1-2-9). -/
theorem C4_header_reversal_witness :
    reversedHeader ⟨1, [1, 2, 9]⟩ = some ⟨1, [2, 1]⟩ ∧
    (reversedHeader ⟨1, [1, 2, 9]⟩).bind SourceRoutingHeader.current_hop =
      SourceRoutingHeader.previous_hop ⟨1, [1, 2, 9]⟩ := by
  obtain ⟨w1, w2⟩ := C4_header_reversal ⟨1, [1, 2, 9]⟩ (by decide)
  exact ⟨w1, w2 (by decide)⟩

/-- C5 counterexample: crashing node 2 receives a MsgFragment routed
1 → 2 → 3 (cursor 1).  The Nack(ErrorInRouting(2)) is sent along the
original header advanced to cursor 2 — to the next hop 3 — not along the
reversed header ⟨1, [2, 1]⟩ that the claim requires. -/
theorem C5_crash_nack_counterexample :
    crashStep exDrone (.pkt exMsgPacket) =
      .cont exDrone [.PacketSent exCrashNack] [(3, exCrashNack)] ∧
    exCrashNack.routing_header = ⟨2, [1, 2, 3]⟩ ∧
    reversedHeader exMsgPacket.routing_header = some ⟨1, [2, 1]⟩ ∧
    exCrashNack.routing_header ≠ ⟨1, [2, 1]⟩ ∧
    exCrashNack.pack_type = .Nack ⟨0, .ErrorInRouting 2⟩ := by
  exact ⟨rfl, rfl, rfl, by decide, rfl⟩

/-- C5 (amended): while crashing, a MsgFragment is never forwarded: every
packet handed out is `Nack(ErrorInRouting(this node))` with the fragment's
index, sent along the original header advanced by one hop (`drone.rs:127`),
not the reversed header; and the handed-out packets are independent of the
drop rate. -/
theorem C5_crashing_fragment_nack (s : DroneState) (f : Fragment)
    (rh : SourceRoutingHeader) (sid : Nat) :
    crashStep s (.pkt ⟨.MsgFragment f, rh, sid⟩) =
      liftOutcome (sendNack s ⟨.MsgFragment f, rh, sid⟩ (.ErrorInRouting s.id)
        ⟨rh.hop_index + 1, rh.hops⟩) ∧
    (∀ s' evs snt,
      crashStep s (.pkt ⟨.MsgFragment f, rh, sid⟩) = .cont s' evs snt →
      ∀ n q, (n, q) ∈ snt →
        q = ⟨.Nack ⟨f.fragment_index, .ErrorInRouting s.id⟩,
             ⟨rh.hop_index + 1, rh.hops⟩, sid⟩ ∧
        (∀ g : Fragment, q.pack_type ≠ .MsgFragment g)) ∧
    (∀ q : ℚ,
      (crashStep { s with pdr := q } (.pkt ⟨.MsgFragment f, rh, sid⟩)).sentOf =
        (crashStep s (.pkt ⟨.MsgFragment f, rh, sid⟩)).sentOf) := by
  refine ⟨rfl, ?_, ?_⟩
  · intro s' evs snt h n q hq
    have ho := liftOutcome_cont
      (sendNack s ⟨.MsgFragment f, rh, sid⟩ (.ErrorInRouting s.id)
        ⟨rh.hop_index + 1, rh.hops⟩) s' evs snt h
    obtain ⟨_, _, _, h4⟩ := sendNack_ok _ _ _ _ _ _ _ ho
    have hqe := h4 n q hq
    refine ⟨hqe, ?_⟩
    intro g
    rw [hqe]
    simp
  · intro q
    have h1 : (crashStep { s with pdr := q }
        (.pkt ⟨.MsgFragment f, rh, sid⟩)).sentOf =
        (sendNack { s with pdr := q } ⟨.MsgFragment f, rh, sid⟩
          (.ErrorInRouting s.id) ⟨rh.hop_index + 1, rh.hops⟩).sent := by
      exact liftOutcome_sentOf _
    have h2 : (crashStep s (.pkt ⟨.MsgFragment f, rh, sid⟩)).sentOf =
        (sendNack s ⟨.MsgFragment f, rh, sid⟩
          (.ErrorInRouting s.id) ⟨rh.hop_index + 1, rh.hops⟩).sent :=
      liftOutcome_sentOf _
    rw [h1, h2]
    exact (sendNack_pdr s q _ _ _).1

/-- C5 witness: the concrete crash-mode Nack for `exMsgPacket`. -/
theorem C5_crashing_fragment_nack_witness :
    exCrashNack = ⟨.Nack ⟨0, .ErrorInRouting exDrone.id⟩, ⟨2, [1, 2, 3]⟩, 0⟩ ∧
    (∀ g : Fragment, exCrashNack.pack_type ≠ .MsgFragment g) := by
  have hw := (C5_crashing_fragment_nack exDrone ⟨0, 1, 0, []⟩ ⟨1, [1, 2, 3]⟩ 0).2.1
    exDrone [.PacketSent exCrashNack] [(3, exCrashNack)] rfl 3 exCrashNack
    (by simp)
  exact hw


/-- C6 counterexample: the claim's "at which point the runtime loop exits" is
false of the code.  `run` (`drone.rs:44-59`) is an unconditional `loop` with
no break or return: after the crash loop returns with an empty Neighbor Table
(node 2 losing its last neighbor — the claim's "Terminated" point), the outer
loop keeps iterating — it processes a later `AddSender(3)` command, and the
re-equipped node then forwards a fresh MsgFragment. -/
theorem C6_run_loop_counterexample :
    crashStep exLeaf (.cmd (.RemoveSender 1)) =
      .terminated ⟨2, [], 0, [], false⟩ [] [] ∧
    runStep ⟨2, [], 0, [], false⟩ 0 (.cmd (.AddSender 3 true)) =
      .step ⟨2, [(3, true)], 0, [], false⟩ [] [] ∧
    runStep ⟨2, [(3, true)], 0, [], false⟩ 0 (.pkt exMsgPacket) =
      .step ⟨2, [(3, true)], 0, [], false⟩ [.PacketSent exForwarded]
        [(3, exForwarded)] := by
  exact ⟨rfl, rfl, rfl⟩

/-- C6 (amended): while crashing, `RemoveSender(n)` removes the neighbor and
the inner `crash` loop returns — the crash-drain completes — exactly when the
resulting Neighbor Table is empty; `SetPacketDropRate`, `Crash` and
`AddSender` are ignored; an inbound FloodRequest is discarded with no state
change, no event and no send; and no inbound packet — in particular a
forwarded Ack, Nack or FloodResponse — ever produces the `terminated` result
by itself.  The runtime loop, however, does not exit: `run` is an
unconditional loop, so after the crash loop returns the node keeps iterating
— a later `AddSender` is still applied to the (possibly empty) table and a
later packet is still handled. -/
theorem C6_crash_drain (s : DroneState) :
    (∀ n, (∃ s', crashStep s (.cmd (.RemoveSender n)) = .terminated s' [] []) ↔
        removeNeighbor s.packet_send n = []) ∧
    (∀ n, crashStep s (.cmd (.RemoveSender n)) =
      (if removeNeighbor s.packet_send n = [] then
        CrashResult.terminated
          { s with packet_send := removeNeighbor s.packet_send n } [] []
      else
        CrashResult.cont
          { s with packet_send := removeNeighbor s.packet_send n } [] [])) ∧
    (∀ q, crashStep s (.cmd (.SetPacketDropRate q)) = .cont s [] []) ∧
    (crashStep s (.cmd .Crash) = .cont s [] []) ∧
    (∀ n b, crashStep s (.cmd (.AddSender n b)) = .cont s [] []) ∧
    (∀ fr rh sid,
      crashStep s (.pkt ⟨.FloodRequest fr, rh, sid⟩) = .cont s [] []) ∧
    (∀ p s' evs snt, crashStep s (.pkt p) ≠ .terminated s' evs snt) ∧
    (∀ (draw : ℚ) n b, runStep s draw (.cmd (.AddSender n b)) =
      .step { s with packet_send := insertNeighbor s.packet_send n b } [] []) ∧
    (∀ (draw : ℚ) p s' evs snt, handlePacket s p draw = .ok s' evs snt →
      runStep s draw (.pkt p) = .step s' evs snt) := by
  have h2 : ∀ n, crashStep s (.cmd (.RemoveSender n)) =
      (if removeNeighbor s.packet_send n = [] then
        CrashResult.terminated
          { s with packet_send := removeNeighbor s.packet_send n } [] []
      else
        CrashResult.cont
          { s with packet_send := removeNeighbor s.packet_send n } [] []) := by
    intro n
    have hr : crashStep s (.cmd (.RemoveSender n)) =
        (if (removeNeighbor s.packet_send n).isEmpty then
          CrashResult.terminated
            { s with packet_send := removeNeighbor s.packet_send n } [] []
        else
          CrashResult.cont
            { s with packet_send := removeNeighbor s.packet_send n } [] []) := rfl
    rw [hr]
    by_cases he : removeNeighbor s.packet_send n = []
    · rw [if_pos (List.isEmpty_iff.mpr he), if_pos he]
    · rw [if_neg (fun hc => he (List.isEmpty_iff.mp hc)), if_neg he]
  refine ⟨?_, h2, fun q => rfl, rfl, fun n b => rfl, fun fr rh sid => rfl, ?_,
    fun draw n b => rfl, ?_⟩
  · intro n
    constructor
    · rintro ⟨s', hs⟩
      rw [h2 n] at hs
      by_cases he : removeNeighbor s.packet_send n = []
      · exact he
      · rw [if_neg he] at hs
        exact absurd hs (by simp)
    · intro he
      exact ⟨{ s with packet_send := removeNeighbor s.packet_send n },
        by rw [h2 n, if_pos he]⟩
  · intro p s' evs snt
    obtain ⟨pt, rh, sid⟩ := p
    cases pt with
    | FloodRequest fr =>
        intro hc
        rw [show crashStep s (.pkt ⟨.FloodRequest fr, rh, sid⟩) = .cont s [] []
          from rfl] at hc
        exact absurd hc (by simp)
    | Ack a => exact liftOutcome_ne_terminated _ _ _ _
    | Nack n => exact liftOutcome_ne_terminated _ _ _ _
    | FloodResponse fr => exact liftOutcome_ne_terminated _ _ _ _
    | MsgFragment f => exact liftOutcome_ne_terminated _ _ _ _
  · intro draw p s' evs snt h
    unfold runStep
    dsimp only
    rw [h]

/-- C6 witness: removing the last neighbor of a single-neighbor node makes the
crash loop return; the outer loop then still handles a fresh fragment. -/
theorem C6_crash_drain_witness :
    removeNeighbor exLeaf.packet_send 1 = [] ∧
    (∃ s', crashStep exLeaf (.cmd (.RemoveSender 1)) = .terminated s' [] []) ∧
    runStep ⟨2, [(3, true)], 0, [], false⟩ 0 (.pkt exMsgPacket) =
      .step ⟨2, [(3, true)], 0, [], false⟩ [.PacketSent exForwarded]
        [(3, exForwarded)] := by
  refine ⟨rfl, ((C6_crash_drain exLeaf).1 1).mpr rfl, ?_⟩
  exact (C6_crash_drain ⟨2, [(3, true)], 0, [], false⟩).2.2.2.2.2.2.2.2 0
    exMsgPacket _ _ _ rfl

/-- C7 counterexample: node 2 (flood id 7 cached) receives a FloodRequest
whose path trace is [(2, Drone), (5, Drone)] — node 2 present but not last.
The claim says the node appends itself when not already last; the code checks
membership (`drone.rs:204`), so the emitted FloodResponse carries the trace
unchanged, with last entry (5, Drone) ≠ (2, Drone). -/
theorem C7_trace_append_counterexample :
    handlePacket exDroneCached exCachedFlood 0 =
      .ok exDroneCached [.PacketSent exCachedResp] [(1, exCachedResp)] ∧
    exCachedResp.pack_type = .FloodResponse ⟨7, [(2, .Drone), (5, .Drone)]⟩ ∧
    ([(2, .Drone), (5, .Drone)] : List (NodeId × NodeType)) ≠
      [(2, .Drone), (5, .Drone), (2, .Drone)] ∧
    ([(2, .Drone), (5, .Drone)] : List (NodeId × NodeType)).getLast? ≠
      some (2, .Drone) := by
  exact ⟨rfl, rfl, by decide, by decide⟩

/-- C7 (amended): for every FloodRequest whose dedup key is already
recorded, and for every FloodRequest at a node with at most one neighbor,
nothing is re-broadcast: every packet handed out is the synthesized
FloodResponse carrying the accumulated path trace — with this node appended
when not already present anywhere in the trace — routed along the reversed
traversed hops. -/
theorem C7_flood_response_no_rebroadcast (s : DroneState) (packet : Packet)
    (fr : FloodRequest)
    (hcond : (s.id, fr.flood_id) ∈ s.flood_cache ∨ s.packet_send.length ≤ 1) :
    ∀ s' evs snt, handleFloodRequest s packet fr = .ok s' evs snt →
      ∀ n q, (n, q) ∈ snt →
        q.pack_type = .FloodResponse
            ⟨fr.flood_id,
             if (s.id, NodeType.Drone) ∈ fr.path_trace then fr.path_trace
             else fr.path_trace ++ [(s.id, NodeType.Drone)]⟩ ∧
        q.routing_header.hops =
          ((if s.id ∈ packet.routing_header.hops then packet.routing_header
            else packet.routing_header.append_hop s.id).reverse).hops ∧
        ∀ g, q.pack_type ≠ .FloodRequest g := by
  intro s' evs snt h n q hq
  have hqe := handleFloodRequest_response s packet fr hcond s' evs snt h n q hq
  rw [hqe]
  exact ⟨rfl, rfl, fun g => by simp⟩

/-- C7 witness: the leaf node 2 answers the concrete flood request. -/
theorem C7_flood_response_no_rebroadcast_witness :
    exLeafResp.pack_type = .FloodResponse ⟨7, [(1, .Client), (2, .Drone)]⟩ := by
  have hw := C7_flood_response_no_rebroadcast exLeaf exFloodPacket
    ⟨7, 1, [(1, .Client)]⟩ (Or.inr (by decide)) exLeafCached
    [.PacketSent exLeafResp] [(1, exLeafResp)] rfl 1 exLeafResp (by simp)
  exact hw.1

/-- C8 counterexample: with drop rate 1 and the random draw exactly 1 —
a possible value of `gen_range(0.0..=1.0)`, an inclusive range — the
comparison `1 < 1` is false (`drone.rs:296`), so the node forwards the
fragment instead of always emitting Nack(Dropped). -/
theorem C8_full_pdr_counterexample :
    exDroneFullPdr.pdr = 1 ∧ (0 : ℚ) ≤ 1 ∧ (1 : ℚ) ≤ 1 ∧
    handlePacket exDroneFullPdr exMsgPacket 1 =
      .ok exDroneFullPdr [.PacketSent exForwarded] [(3, exForwarded)] ∧
    exForwarded.pack_type = .MsgFragment ⟨0, 1, 0, []⟩ := by
  exact ⟨rfl, by norm_num, by norm_num, rfl, rfl⟩

/-- C8 (amended): a MsgFragment at the expected non-final hop with an open
channel to the next hop is dropped if and only if the draw is strictly less
than the drop rate: on `draw < p` the node reverses the header for a
Nack(Dropped), otherwise it forwards the fragment unchanged under the
advanced header.  With `p = 0` it always forwards (for any draw ≥ 0); with
`p = 1` it drops exactly for draws strictly below 1 — the draw 1, possible
for the inclusive range, is forwarded. -/
theorem C8_drop_boundary (s : DroneState) (f : Fragment)
    (rh : SourceRoutingHeader) (sid : Nat) (nh : NodeId) (draw : ℚ)
    (hcur : rh.current_hop = some s.id)
    (hlast : rh.is_last_hop = false)
    (hnext : rh.next_hop = some nh)
    (hopen : lookupNeighbor s.packet_send nh = some true)
    (hflag : s.should_send_dropped = false) :
    (draw < s.pdr →
      handlePacket s ⟨.MsgFragment f, rh, sid⟩ draw =
        sendNack { s with should_send_dropped := true } ⟨.MsgFragment f, rh, sid⟩
          .Dropped ⟨1, (rh.hops.take (rh.hop_index + 1)).reverse⟩) ∧
    (¬draw < s.pdr →
      handlePacket s ⟨.MsgFragment f, rh, sid⟩ draw =
        .ok s [.PacketSent ⟨.MsgFragment f, ⟨rh.hop_index + 1, rh.hops⟩, sid⟩]
          [(nh, ⟨.MsgFragment f, ⟨rh.hop_index + 1, rh.hops⟩, sid⟩)]) ∧
    (s.pdr = 0 → 0 ≤ draw →
      handlePacket s ⟨.MsgFragment f, rh, sid⟩ draw =
        .ok s [.PacketSent ⟨.MsgFragment f, ⟨rh.hop_index + 1, rh.hops⟩, sid⟩]
          [(nh, ⟨.MsgFragment f, ⟨rh.hop_index + 1, rh.hops⟩, sid⟩)]) ∧
    (s.pdr = 1 → draw < 1 →
      handlePacket s ⟨.MsgFragment f, rh, sid⟩ draw =
        sendNack { s with should_send_dropped := true } ⟨.MsgFragment f, rh, sid⟩
          .Dropped ⟨1, (rh.hops.take (rh.hop_index + 1)).reverse⟩) := by
  have hhave : containsKey s.packet_send nh = true := by
    unfold containsKey
    rw [hopen]
    rfl
  have hmain := handlePacket_msgFragment s f rh sid nh draw hcur hlast hnext hhave
  have hfwd : sendMsgFragment s ⟨.MsgFragment f, rh, sid⟩ f
      ⟨rh.hop_index + 1, rh.hops⟩ =
      .ok s [.PacketSent ⟨.MsgFragment f, ⟨rh.hop_index + 1, rh.hops⟩, sid⟩]
        [(nh, ⟨.MsgFragment f, ⟨rh.hop_index + 1, rh.hops⟩, sid⟩)] := by
    unfold sendMsgFragment
    rw [show SourceRoutingHeader.current_hop ⟨rh.hop_index + 1, rh.hops⟩ =
      some nh from hnext]
    dsimp only
    unfold trySendPacket
    rw [hopen]
    dsimp only
    rw [hflag]
    simp
  refine ⟨fun hd => ?_, fun hd => ?_, fun hp hd => ?_, fun hp hd => ?_⟩
  · rw [hmain, if_pos hd]
  · rw [hmain, if_neg hd, hfwd]
  · rw [hmain, if_neg (by rw [hp]; exact not_lt.mpr hd), hfwd]
  · rw [hmain, if_pos (by rw [hp]; exact hd)]

/-- C8 witness: the concrete forward at drop rate 1 and draw 1. -/
theorem C8_drop_boundary_witness :
    (¬(1 : ℚ) < exDroneFullPdr.pdr) ∧
    handlePacket exDroneFullPdr exMsgPacket 1 =
      .ok exDroneFullPdr
        [.PacketSent ⟨.MsgFragment ⟨0, 1, 0, []⟩, ⟨2, [1, 2, 3]⟩, 0⟩]
        [(3, ⟨.MsgFragment ⟨0, 1, 0, []⟩, ⟨2, [1, 2, 3]⟩, 0⟩)] := by
  have hd : ¬(1 : ℚ) < exDroneFullPdr.pdr := by decide
  exact ⟨hd, (C8_drop_boundary exDroneFullPdr ⟨0, 1, 0, []⟩ ⟨1, [1, 2, 3]⟩ 0 3 1
    rfl rfl rfl rfl rfl).2.1 hd⟩

/-- C9 counterexample: node 2 (drop rate 1, draw 0) drops `exMsgPacket`.
The single emitted event is `PacketDropped` carrying the generated
Nack(Dropped) packet — not the discarded fragment — and no `PacketSent` event
is emitted for the Nack (`drone.rs:434-436`). -/
theorem C9_drop_event_counterexample :
    handlePacket exDroneFullPdr exMsgPacket 0 =
      .ok exDroneFullPdr [.PacketDropped exDropNack] [(1, exDropNack)] ∧
    exDropNack ≠ exMsgPacket ∧
    exDropNack.pack_type = .Nack ⟨0, .Dropped⟩ := by
  exact ⟨rfl, by decide, rfl⟩

/-- C9 (amended): when the drop simulator discards a MsgFragment and the
generated Nack(Dropped) is delivered successfully, the node emits exactly one
event: `PacketDropped` carrying the Nack packet (reversed header, the
fragment's index); no `PacketSent` event accompanies it. -/
theorem C9_dropped_event_carries_nack (s : DroneState) (f : Fragment)
    (rh : SourceRoutingHeader) (sid : Nat) (nh back : NodeId) (draw : ℚ)
    (hcur : rh.current_hop = some s.id)
    (hlast : rh.is_last_hop = false)
    (hnext : rh.next_hop = some nh)
    (hhave : containsKey s.packet_send nh = true)
    (hdrop : draw < s.pdr)
    (hback : ((rh.hops.take (rh.hop_index + 1)).reverse).get? 1 = some back)
    (hopen : lookupNeighbor s.packet_send back = some true)
    (hflag : s.should_send_dropped = false) :
    handlePacket s ⟨.MsgFragment f, rh, sid⟩ draw =
      .ok s
        [.PacketDropped ⟨.Nack ⟨f.fragment_index, .Dropped⟩,
            ⟨1, (rh.hops.take (rh.hop_index + 1)).reverse⟩, sid⟩]
        [(back, ⟨.Nack ⟨f.fragment_index, .Dropped⟩,
            ⟨1, (rh.hops.take (rh.hop_index + 1)).reverse⟩, sid⟩)] := by
  rw [handlePacket_msgFragment s f rh sid nh draw hcur hlast hnext hhave,
    if_pos hdrop]
  unfold sendNack
  dsimp only
  rw [hback]
  dsimp only
  unfold trySendPacket
  dsimp only
  rw [hopen]
  dsimp only
  rw [if_pos rfl]
  have hse : (DroneState.mk s.id s.packet_send s.pdr s.flood_cache false) = s := by
    cases s with
    | mk a b c d e => subst hflag; rfl
  rw [hse]
  rfl

/-- C9 witness: the concrete drop of `exMsgPacket` at drop rate 1, draw 0. -/
theorem C9_dropped_event_carries_nack_witness :
    (0 : ℚ) < exDroneFullPdr.pdr ∧
    handlePacket exDroneFullPdr exMsgPacket 0 =
      .ok exDroneFullPdr [.PacketDropped exDropNack] [(1, exDropNack)] := by
  have hd : (0 : ℚ) < exDroneFullPdr.pdr := by decide
  exact ⟨hd, C9_dropped_event_carries_nack exDroneFullPdr ⟨0, 1, 0, []⟩
    ⟨1, [1, 2, 3]⟩ 0 3 1 0 rfl rfl rfl rfl hd rfl rfl rfl⟩

/-- C10: the dedup key stored by the flood handler is
`(this node, flood id)` — every successful handling records it, whatever the
initiator — and once the key is cached every later FloodRequest with the same
flood id, from any initiator and any arrival neighbor, is answered with a
FloodResponse and nothing else (never re-broadcast).  Cache entries are never
removed: packet handling, commands and the crash loop only grow the cache. -/
theorem C10_dedup_key_and_cache (s : DroneState) :
    (∀ packet fr s' evs snt, handleFloodRequest s packet fr = .ok s' evs snt →
        s'.id = s.id ∧ (s.id, fr.flood_id) ∈ s'.flood_cache ∧
        ∀ k, k ∈ s.flood_cache → k ∈ s'.flood_cache) ∧
    (∀ packet fr, (s.id, fr.flood_id) ∈ s.flood_cache →
      ∀ s' evs snt, handleFloodRequest s packet fr = .ok s' evs snt →
        ∀ n q, (n, q) ∈ snt →
          (∃ fresp, q.pack_type = .FloodResponse fresp) ∧
          ∀ g, q.pack_type ≠ .FloodRequest g) ∧
    (∀ packet draw s' evs snt, handlePacket s packet draw = .ok s' evs snt →
        ∀ k, k ∈ s.flood_cache → k ∈ s'.flood_cache) ∧
    (∀ c, (handleCommand s c).flood_cache = s.flood_cache) ∧
    (∀ i s' evs snt,
      crashStep s i = .cont s' evs snt ∨
        crashStep s i = .terminated s' evs snt →
      s'.flood_cache = s.flood_cache) := by
  refine ⟨?_, ?_, ?_, ?_, ?_⟩
  · intro packet fr s' evs snt h
    exact handleFloodRequest_ok s packet fr s' evs snt h
  · intro packet fr hin s' evs snt h n q hq
    have hqe := handleFloodRequest_response s packet fr (Or.inl hin) s' evs snt
      h n q hq
    rw [hqe]
    exact ⟨⟨_, rfl⟩, fun g => by simp⟩
  · intro packet draw s' evs snt h
    exact (handlePacket_cache_mono s packet draw s' evs snt h).2
  · intro c
    cases c <;> rfl
  · intro i s' evs snt h
    exact (crashStep_state s i s' evs snt h).1

/-- C10 witness: leaf node 2 sees flood 7 from initiator 1, then answers the same flood id from initiator 9 with a FloodResponse. -/
theorem C10_dedup_key_and_cache_witness :
    ((exLeaf.id, 7) ∈ exLeafCached.flood_cache) ∧
    (∃ fresp, exSecondResp.pack_type = .FloodResponse fresp) := by
  constructor
  · exact ((C10_dedup_key_and_cache exLeaf).1 exFloodPacket
      ⟨7, 1, [(1, .Client)]⟩ exLeafCached [.PacketSent exLeafResp]
      [(1, exLeafResp)] rfl).2.1
  · exact (((C10_dedup_key_and_cache exLeafCached).2.1 exSecondFlood
      ⟨7, 9, [(9, .Client)]⟩ (by decide) exLeafCached [.PacketSent exSecondResp]
      [(1, exSecondResp)] rfl) 1 exSecondResp (by simp)).1

end Drone
